import Mathlib

/-!
Verification of the balance-consistency and recalculation engine of the
finance-manager repository (Django app `finance`): the currency converter
(`finance/logic/convert_currency.py`), the `Calculator` aggregations
(`finance/logic/fincalc.py`), the `Updater` posting / rebalance logic
(`finance/logic/updaters.py`), the recurring-expense lifecycle
(`finance/services/transaction_services.py`, `finance/models.py`) and the
deletion behaviour of payment sources (`finance/models.py`,
`finance/api_tools/signals.py`).

Monetary amounts (Python `Decimal`) are modelled as rationals; the two-decimal
`Decimal.quantize(Decimal("0.01"))` (whose default rounding mode is
`ROUND_HALF_EVEN`) is modelled by `quantize2`.  Currency codes, account types
and transaction types are strings, exactly as the Django models store them.
The historical exchange-rate table is an abstract `rate : String → String → ℚ`
parameter.  Python runtime failures that the embedded code provably raises
(the `TypeError` from the wrong-arity `self._calc_totals(...)` call and from
`Decimal(Abs(...))`, the `NameError` from `_recalc_asset_amount`'s first
statement, the `AttributeError` from `calc_new_balance`'s QuerySet attribute
read, Django's `ProtectedError` on deleting a protected row) are modelled
with `Except PyErr`.
-/

namespace FinanceManager

/-- Runtime errors raised by the embedded Python code. -/
inductive PyErr where
  | typeError
  | nameError
  | attributeError
  | protectedError
  deriving DecidableEq, Repr

instance {ε α : Type} [DecidableEq ε] [DecidableEq α] : DecidableEq (Except ε α) :=
  fun a b =>
    match a, b with
    | .ok x, .ok y => if h : x = y then isTrue (by rw [h]) else isFalse (by simp [h])
    | .error x, .error y => if h : x = y then isTrue (by rw [h]) else isFalse (by simp [h])
    | .ok _, .error _ => isFalse (by simp)
    | .error _, .ok _ => isFalse (by simp)

/-- Round a rational to the nearest integer, ties to the even neighbour:
the `ROUND_HALF_EVEN` rule that `decimal.Decimal.quantize` applies by
default. -/
def roundHalfEven (q : ℚ) : ℤ :=
  if q - ⌊q⌋ < 1/2 then ⌊q⌋
  else if q - ⌊q⌋ > 1/2 then ⌊q⌋ + 1
  else if Even ⌊q⌋ then ⌊q⌋ else ⌊q⌋ + 1

/-- Python `Decimal(x).quantize(Decimal("0.01"))`: round to two decimal
places, half-even. -/
def quantize2 (q : ℚ) : ℚ := (roundHalfEven (100 * q) : ℚ) / 100

/-- Embeds `finance/logic/convert_currency.py::convert_currency`: a `None`
amount becomes `0`; equal codes return the amount unchanged
(`Decimal(amount)`); otherwise the rate-table conversion `amount * rate` is
applied (`CurrencyConverter.convert`). -/
def convert_currency (rate : String → String → ℚ)
    (amount : Option ℚ) (from_currency to_currency : String) : ℚ :=
  match amount with
  | none => 0
  | some a => if from_currency = to_currency then a else a * rate from_currency to_currency

/-- Calendar date (proleptic Gregorian), as produced by Python
`datetime.date`. -/
structure Date where
  year : Int
  month : Int
  day : Int
  deriving DecidableEq, Repr

/-- Lexicographic `≤` on dates, Python's `date.__le__`. -/
def Date.ble (a b : Date) : Bool :=
  decide (a.year < b.year ∨ (a.year = b.year ∧
    (a.month < b.month ∨ (a.month = b.month ∧ a.day ≤ b.day))))

/-- Lexicographic `<` on dates, Python's `date.__lt__`. -/
def Date.blt (a b : Date) : Bool :=
  decide (a.year < b.year ∨ (a.year = b.year ∧
    (a.month < b.month ∨ (a.month = b.month ∧ a.day < b.day))))

/-- Number of days of a month in the proleptic Gregorian calendar
(`calendar.monthrange`). -/
def daysInMonth (y m : Int) : Int :=
  if m = 2 then (if (y % 4 = 0 ∧ y % 100 ≠ 0) ∨ y % 400 = 0 then 29 else 28)
  else if m = 4 ∨ m = 6 ∨ m = 9 ∨ m = 11 then 30 else 31

/-- Embeds `dateutil.relativedelta.relativedelta(months=k)` applied to a
date: shift the month (normalising into the year) and clamp the day to the
length of the resulting month. -/
def Date.addMonths (d : Date) (k : Int) : Date :=
  let t := d.month - 1 + k
  let y := d.year + t.fdiv 12
  let m := t.fmod 12 + 1
  ⟨y, m, min d.day (daysInMonth y m)⟩

/-- First day of the month of a date (`today.replace(day=1)`). -/
def Date.firstOfMonth (d : Date) : Date := ⟨d.year, d.month, 1⟩

/-- One row of `CurrentAsset` joined with its `PaymentSource`
(`finance/models.py`): the balance record of one account. -/
structure CurrentAsset where
  source : String
  acc_type : String
  amount : ℚ
  currency : String
  deriving DecidableEq, Repr

/-- One `Transaction` row (`finance/models.py`), restricted to the fields
the balance engine reads. -/
structure Tx where
  date : Date
  amount : ℚ
  currency : String
  tx_type : String
  source : String
  deriving DecidableEq, Repr

/-- One `UpcomingExpense` row (`finance/models.py`). -/
structure UpcomingExpense where
  name : String
  estimated_cost : ℚ
  due_date : Date
  end_date : Option Date
  paid_flag : Bool
  is_recurring : Bool
  status : String
  currency : String
  deriving DecidableEq, Repr

/-- Embeds the body of `Calculator._calc_totals` (`fincalc.py`), read as the
three-parameter function it is declared as: convert into the base currency
when the currencies differ, otherwise `amount or Decimal("0")`. -/
def calc_totals (rate : String → String → ℚ)
    (item_currency base_currency : String) (amount : Option ℚ) : ℚ :=
  if item_currency ≠ base_currency then
    convert_currency rate amount item_currency base_currency
  else
    match amount with
    | none => 0
    | some a => a

/-- Embeds the evaluation of
`sum(map(lambda x: self._calc_totals(x["currency__code"], self.base_currency, x["total"]), groups))`
as it executes: `_calc_totals` is declared with three parameters and no
`self`, so invoking it as a bound method with three explicit arguments
passes four and raises `TypeError` on the first element; over an empty
iterable the mapped function is never invoked and `sum` returns `0`. -/
def sumCalcTotalsBound (groups : List (String × ℚ)) : Except PyErr ℚ :=
  match groups with
  | [] => .ok 0
  | _ :: _ => .error .typeError

/-- One step of the per-currency grouping
`values("currency__code").annotate(total=Sum("amount"))`: add the amount to
the row of an already-seen currency, or start a new row. -/
def groupStep (acc : List (String × ℚ)) (p : String × ℚ) : List (String × ℚ) :=
  if acc.any (fun q => q.1 == p.1) then
    acc.map (fun q => if q.1 == p.1 then (q.1, q.2 + p.2) else q)
  else acc ++ [p]

/-- Per-currency grouping with sums, the queryset
`values("currency__code").annotate(total=Sum("amount"))` used throughout
`Calculator`. -/
def groupByCurrency (items : List (String × ℚ)) : List (String × ℚ) :=
  items.foldl groupStep []

/-- Embeds `Calculator.calc_queryset` (`fincalc.py`): group the queryset by
currency, fold the groups through the bound `self._calc_totals(...)` call,
and quantize the total to two decimals. -/
def calc_queryset (base_currency : String) (queryset : List (String × ℚ)) :
    Except PyErr ℚ := do
  let total ← sumCalcTotalsBound (groupByCurrency queryset)
  pure (quantize2 total)

/-- Embeds `Calculator.calc_total_assets` (`fincalc.py`): drop assets whose
source has account type `UNKNOWN`, group the rest by currency, fold through
the bound `self._calc_totals(...)` call, quantize. -/
def calc_total_assets (assets : List CurrentAsset) : Except PyErr ℚ := do
  let kept := assets.filter (fun a => a.acc_type != "UNKNOWN")
  let total ← sumCalcTotalsBound (groupByCurrency (kept.map (fun a => (a.currency, a.amount))))
  pure (quantize2 total)

/-- Embeds `Calculator.calc_asset_type` (`fincalc.py`): keep assets of the
given account type, group by currency, fold through the bound
`self._calc_totals(...)` call, quantize. -/
def calc_asset_type (acc_type : String) (assets : List CurrentAsset) :
    Except PyErr ℚ := do
  let kept := assets.filter (fun a => a.acc_type == acc_type)
  let total ← sumCalcTotalsBound (groupByCurrency (kept.map (fun a => (a.currency, a.amount))))
  pure (quantize2 total)

/-- Embeds `Calculator.calc_leaks` (`fincalc.py`): total the `XFER_IN` and
`XFER_OUT` transactions separately (each through the bound
`self._calc_totals(...)` call) and return the quantized difference. -/
def calc_leaks (transactions : List Tx) : Except PyErr ℚ := do
  let xin ← sumCalcTotalsBound (groupByCurrency
    ((transactions.filter (fun t => t.tx_type == "XFER_IN")).map (fun t => (t.currency, t.amount))))
  let xout ← sumCalcTotalsBound (groupByCurrency
    ((transactions.filter (fun t => t.tx_type == "XFER_OUT")).map (fun t => (t.currency, t.amount))))
  pure (quantize2 (xin - xout))

/-- Embeds `UpcomingExpenseManager.get_current_month`
(`finance/management/managers.py`): the expenses whose `due_date` lies in
`[first_of_month, today]`.  Note it filters on the due date only — not on
`paid_flag` or `status`. -/
def upcoming_get_current_month (today : Date) (upcoming : List UpcomingExpense) :
    List UpcomingExpense :=
  upcoming.filter (fun e => (Date.firstOfMonth today).ble e.due_date && e.due_date.ble today)

/-- Embeds `Calculator.calc_sts` (`fincalc.py`): spendable balances are the
assets whose account type is in the profile's spend-account set, debts are
`self.upcoming.get_current_month()`; both are grouped by currency and folded
through the bound `self._calc_totals(...)` call, and the quantized
difference is returned. -/
def calc_sts (spend_accounts : List String) (assets : List CurrentAsset)
    (upcoming : List UpcomingExpense) (today : Date) : Except PyErr ℚ := do
  let spendable := assets.filter (fun a => spend_accounts.contains a.acc_type)
  let debts := upcoming_get_current_month today upcoming
  let spend ← sumCalcTotalsBound (groupByCurrency (spendable.map (fun a => (a.currency, a.amount))))
  let debt ← sumCalcTotalsBound (groupByCurrency (debts.map (fun e => (e.currency, e.estimated_cost))))
  pure (quantize2 (spend - debt))

/-- Embeds `Decimal(Abs(item['amount']))` from `Updater.fix_tx_data`
(`updaters.py` line 88).  `Abs` there is `django.db.models.functions.Abs`
(imported at `updaters.py` line 13), an ORM expression constructor, not a
numeric absolute value: applied to a number it builds an `Abs` expression
object, and `Decimal(...)` of that object raises `TypeError` for every
amount.  The absolute value is never computed. -/
def decimalAbs (amount : ℚ) : Except PyErr ℚ := .error .typeError

/-- Embeds the amount normalisation of `Updater.fix_tx_data`
(`updaters.py` lines 85-104): `item['amount'] = Decimal(Abs(item['amount']))`,
then negation of the result for `EXPENSE` and `XFER_OUT` transactions.  The
first statement raises `TypeError` (see `decimalAbs`), so the sign step that
follows it is unreachable for every transaction type and amount. -/
def fix_tx_amount (tx_type : String) (amount : ℚ) : Except PyErr ℚ := do
  let a ← decimalAbs amount
  pure (if tx_type = "EXPENSE" ∨ tx_type = "XFER_OUT" then a * (-1) else a)

/-- Embeds `Calculator.calc_new_balance` (`fincalc.py` lines 121-156).  After
reading the stored balance, the function evaluates `asset_queryset.currency`
(line 145) — but `asset_queryset` is a QuerySet, which has no `currency`
attribute, so every call raises `AttributeError` before the currency
conversion (line 151) and the quantized addition (lines 154-156) can run.
The parameters are those the unreachable remainder would have used. -/
def calc_new_balance (rate : String → String → ℚ)
    (base_currency asset_currency : String) (old_balance amount : ℚ) :
    Except PyErr ℚ :=
  .error .attributeError

/-- The FinancialSnapshot fields recomputed and written by
`Updater.rebalance` and its private helpers (`updaters.py`). -/
inductive SnapshotField where
  | assetTypeTotal
  | totalAssets
  | totalLeaks
  | safeToSpend
  deriving DecidableEq, Repr

/-- Embeds the dispatch of `Updater.rebalance` (`updaters.py`) as the
ordered list of snapshot recompute-and-write steps it performs: the
per-account-type totals (`_recalc_asset_type`) when `acc_type` is set, then
total assets (`_recalc_total_assets`), then leaks (`_recalc_leaks`), then
safe-to-spend (`_recalc_sts`). -/
def rebalance (acc_type total_assets leaks sts : Bool) : List SnapshotField :=
  (if acc_type then [SnapshotField.assetTypeTotal] else [])
    ++ (if total_assets then [SnapshotField.totalAssets] else [])
    ++ (if leaks then [SnapshotField.totalLeaks] else [])
    ++ (if sts then [SnapshotField.safeToSpend] else [])

/-- Embeds `UpcomingExpense.save` (`finance/models.py`): on every
persistence, if `end_date` is set and the current date has passed it,
`is_recurring` is forced to `False`. -/
def expense_save (today : Date) (e : UpcomingExpense) : UpcomingExpense :=
  match e.end_date with
  | some d => if d.blt today then { e with is_recurring := false } else e
  | none => e

/-- Embeds `transaction_services._handle_upcoming`
(`finance/services/transaction_services.py`, single-expense branch), the
handler run when a transaction linked to a planned expense is posted: mark
the expense paid; if its end date is on or before the posting date
(`timezone.now().date()`), stop the recurrence; if it is (still) recurring,
advance the due date one calendar month; then persist through
`UpcomingExpense.save`. -/
def handle_upcoming (today : Date) (e0 : UpcomingExpense) : UpcomingExpense :=
  let e1 := { e0 with paid_flag := true }
  let e2 :=
    match e1.end_date with
    | some d => if d.ble today then { e1 with is_recurring := false } else e1
    | none => e1
  let e3 := if e2.is_recurring then { e2 with due_date := e2.due_date.addMonths 1 } else e2
  expense_save today e3

/-- Embeds `Updater._updated_affected_upcomings` (`updaters.py`), the
handler run when a transaction linked to a planned expense is edited or
reversed: if the transaction's date is on or after `due_date` minus one
month, clear `paid_flag` and roll `due_date` back one month; then, if an
`end_date` exists and the (possibly rolled-back) `due_date` is on or before
it, set `is_recurring = True`; then persist through
`UpcomingExpense.save`. -/
def updated_affected_upcomings (today tx_date : Date) (e0 : UpcomingExpense) :
    UpcomingExpense :=
  let e1 :=
    if (e0.due_date.addMonths (-1)).ble tx_date then
      { e0 with paid_flag := false, due_date := e0.due_date.addMonths (-1) }
    else e0
  let e2 :=
    match e1.end_date with
    | some d => if e1.due_date.ble d then { e1 with is_recurring := true } else e1
    | none => e1
  expense_save today e2

/-- A `Transaction` row as seen by source deletion: its public id and the
`PaymentSource` it references. -/
structure LedgerTx where
  tx_id : String
  source : String
  deriving DecidableEq, Repr

/-- The rows relevant to deleting a `PaymentSource`: the per-profile source
names and the transactions referencing them. -/
structure Ledger where
  sources : List String
  transactions : List LedgerTx
  deriving DecidableEq, Repr

/-- Embeds the Django deletion of a `PaymentSource`
(`source_services.delete_source` → `QuerySet.delete`).
`Transaction.source` is declared `on_delete=models.PROTECT`
(`finance/models.py`), and Django's deletion collector enforces `PROTECT`
while collecting — raising `ProtectedError` before any `pre_delete` signal
is sent.  Only if no transaction references the source do the `pre_delete`
receivers run (`finance/api_tools/signals.py::delete_source` would reassign
referencing transactions to the reserved `unknown` source — by then
vacuously) and the row is removed. -/
def delete_source (st : Ledger) (src : String) : Except PyErr Ledger :=
  if st.transactions.any (fun t => t.source == src) then .error .protectedError
  else
    let reassigned := st.transactions.map
      (fun t => if t.source == src then { t with source := "unknown" } else t)
    .ok { sources := st.sources.erase src, transactions := reassigned }

end FinanceManager

namespace FinanceManager

theorem roundHalfEven_intCast (n : ℤ) : roundHalfEven (n : ℚ) = n := by
  simp [roundHalfEven]

theorem quantize2_eq_self (q : ℚ) (m : ℤ) (h : (100 : ℚ) * q = m) : quantize2 q = q := by
  unfold quantize2
  rw [h, roundHalfEven_intCast, ← h]
  ring

theorem quantize2_zero : quantize2 0 = 0 := by
  simpa using quantize2_eq_self 0 0 (by norm_num)

theorem groupStep_ne_nil (acc : List (String × ℚ)) (p : String × ℚ) (h : acc ≠ []) :
    groupStep acc p ≠ [] := by
  unfold groupStep
  split
  · intro hmap
    exact h (List.map_eq_nil.mp hmap)
  · simp

theorem foldl_groupStep_ne_nil (l : List (String × ℚ)) (acc : List (String × ℚ))
    (h : acc ≠ []) : l.foldl groupStep acc ≠ [] := by
  induction l generalizing acc with
  | nil => simpa using h
  | cons x xs ih => exact ih _ (groupStep_ne_nil acc x h)

theorem groupByCurrency_ne_nil (items : List (String × ℚ)) (h : items ≠ []) :
    groupByCurrency items ≠ [] := by
  cases items with
  | nil => exact absurd rfl h
  | cons x xs =>
    unfold groupByCurrency
    rw [List.foldl_cons]
    refine foldl_groupStep_ne_nil xs _ ?_
    simp [groupStep]

theorem sumCalcTotalsBound_of_ne_nil (l : List (String × ℚ)) (h : l ≠ []) :
    sumCalcTotalsBound l = .error .typeError := by
  cases l with
  | nil => exact absurd rfl h
  | cons a t => rfl

theorem Date.ble_of_blt (a b : Date) (h : Date.blt a b = true) : Date.ble a b = true := by
  simp only [Date.blt, Date.ble, decide_eq_true_eq] at *
  omega

theorem exceptOkBind {α β : Type} (a : α) (f : α → Except PyErr β) :
    (Except.ok a >>= f : Except PyErr β) = f a := rfl

theorem exceptErrBind {α β : Type} (e : PyErr) (f : α → Except PyErr β) :
    (Except.error e >>= f : Except PyErr β) = Except.error e := rfl

theorem exceptOkMap {α β : Type} (a : α) (f : α → β) :
    (f <$> Except.ok a : Except PyErr β) = Except.ok (f a) := rfl

theorem exceptErrMap {α β : Type} (e : PyErr) (f : α → β) :
    (f <$> Except.error e : Except PyErr β) = Except.error e := rfl

end FinanceManager

set_option maxRecDepth 10000

namespace FinanceManager

/-- C8: converting an amount from a currency code to the same code returns
the input amount unchanged, with no precision loss — `convert_currency`
returns `Decimal(amount)` whenever `from_code == to_code`, for every amount,
every code and any rate table. -/
theorem convert_currency_identity (rate : String → String → ℚ) (a : ℚ) (code : String) :
    convert_currency rate (some a) code code = a := by
  simp [convert_currency]

/-- C3: `Updater.rebalance` recomputes and writes the Snapshot fields in the
fixed order per-account-type total, total assets, leaks, safe-to-spend: for
every flag combination the emitted write sequence is a subsequence of that
canonical order, and the safe-to-spend write is never anywhere but last. -/
theorem rebalance_write_order (acc_type total_assets leaks sts : Bool) :
    (rebalance acc_type total_assets leaks sts).Sublist
      [SnapshotField.assetTypeTotal, SnapshotField.totalAssets,
        SnapshotField.totalLeaks, SnapshotField.safeToSpend]
    ∧ SnapshotField.safeToSpend ∉ (rebalance acc_type total_assets leaks sts).dropLast := by
  cases acc_type <;> cases total_assets <;> cases leaks <;> cases sts <;> decide

/-- C9: every `Calculator` aggregation operation — safe-to-spend, leaks,
queryset total, total assets, per-account-type total — returns zero rather
than raising an error when the input collection is empty. -/
theorem calculator_empty_input_zero (base acc_type : String)
    (spend_accounts : List String) (today : Date) :
    calc_sts spend_accounts [] [] today = .ok 0
    ∧ calc_leaks [] = .ok 0
    ∧ calc_queryset base [] = .ok 0
    ∧ calc_total_assets [] = .ok 0
    ∧ calc_asset_type acc_type [] = .ok 0 := by
  refine ⟨?_, ?_, ?_, ?_, ?_⟩ <;>
    simp [calc_sts, calc_leaks, calc_queryset, calc_total_assets, calc_asset_type,
      upcoming_get_current_month, groupByCurrency, sumCalcTotalsBound, quantize2_zero,
      exceptOkBind, exceptErrBind, exceptOkMap, exceptErrMap]

/-- C10: whenever the per-currency grouping of the input is non-empty, every
`Calculator` aggregation raises `TypeError` instead of returning a total:
`_calc_totals` is declared with three parameters and no `self` yet is always
invoked as a bound method with three explicit arguments (four in total);
only calls over empty collections return a value. -/
theorem calc_totals_bound_call_type_error (base acc_type : String)
    (spend_accounts : List String) (today : Date)
    (queryset : List (String × ℚ)) (transactions : List Tx)
    (assets : List CurrentAsset) (upcoming : List UpcomingExpense) :
    (queryset ≠ [] → calc_queryset base queryset = .error .typeError)
    ∧ (assets.filter (fun a => a.acc_type != "UNKNOWN") ≠ [] →
        calc_total_assets assets = .error .typeError)
    ∧ (assets.filter (fun a => a.acc_type == acc_type) ≠ [] →
        calc_asset_type acc_type assets = .error .typeError)
    ∧ (transactions.filter (fun t => t.tx_type == "XFER_IN") ≠ [] →
        calc_leaks transactions = .error .typeError)
    ∧ (assets.filter (fun a => spend_accounts.contains a.acc_type) ≠ [] →
        calc_sts spend_accounts assets upcoming today = .error .typeError) := by
  refine ⟨?_, ?_, ?_, ?_, ?_⟩
  · intro h
    have h2 := sumCalcTotalsBound_of_ne_nil _ (groupByCurrency_ne_nil _ h)
    simp [calc_queryset, h2, exceptErrBind]
  · intro h
    have h1 : (assets.filter (fun a => a.acc_type != "UNKNOWN")).map
        (fun a => (a.currency, a.amount)) ≠ [] := by simpa using h
    have h2 := sumCalcTotalsBound_of_ne_nil _ (groupByCurrency_ne_nil _ h1)
    simp [calc_total_assets, h2, exceptErrBind]
  · intro h
    have h1 : (assets.filter (fun a => a.acc_type == acc_type)).map
        (fun a => (a.currency, a.amount)) ≠ [] := by simpa using h
    have h2 := sumCalcTotalsBound_of_ne_nil _ (groupByCurrency_ne_nil _ h1)
    simp [calc_asset_type, h2, exceptErrBind]
  · intro h
    have h1 : (transactions.filter (fun t => t.tx_type == "XFER_IN")).map
        (fun t => (t.currency, t.amount)) ≠ [] := by simpa using h
    have h2 := sumCalcTotalsBound_of_ne_nil _ (groupByCurrency_ne_nil _ h1)
    simp [calc_leaks, h2, exceptErrBind, exceptErrMap]
  · intro h
    have h1 : (assets.filter (fun a => spend_accounts.contains a.acc_type)).map
        (fun a => (a.currency, a.amount)) ≠ [] := by simpa using h
    have h2 := sumCalcTotalsBound_of_ne_nil _ (groupByCurrency_ne_nil _ h1)
    simp at h2
    simp [calc_sts, h2, exceptErrBind, exceptErrMap]

/-- Witness for C10: each aggregation evaluated on a concrete one-element
collection raises `TypeError`. -/
theorem calc_totals_bound_call_type_error_witness :
    calc_queryset "USD" [("USD", (5 : ℚ))] = .error .typeError
    ∧ calc_total_assets [⟨"main", "CHECKING", 50, "USD"⟩] = .error .typeError
    ∧ calc_asset_type "CHECKING" [⟨"main", "CHECKING", 50, "USD"⟩] = .error .typeError
    ∧ calc_leaks [⟨⟨2024, 1, 1⟩, 5, "USD", "XFER_IN", "main"⟩] = .error .typeError
    ∧ calc_sts ["CHECKING"] [⟨"main", "CHECKING", 50, "USD"⟩] [] ⟨2024, 1, 15⟩
        = .error .typeError := by
  have h := calc_totals_bound_call_type_error "USD" "CHECKING" ["CHECKING"] ⟨2024, 1, 15⟩
    [("USD", (5 : ℚ))] [⟨⟨2024, 1, 1⟩, 5, "USD", "XFER_IN", "main"⟩]
    [⟨"main", "CHECKING", 50, "USD"⟩] []
  exact ⟨h.1 (by with_unfolding_all decide), h.2.1 (by with_unfolding_all decide),
    h.2.2.1 (by with_unfolding_all decide), h.2.2.2.1 (by with_unfolding_all decide),
    h.2.2.2.2 (by with_unfolding_all decide)⟩

/-- C4 (code bug): `calc_sts` does not compute "spend balances minus unpaid
ACTIVE due expenses".  Its debt set, `UpcomingExpenseManager.get_current_month`,
selects every expense whose due date lies between the first of the current
month and today, regardless of `paid_flag` and `status` — here an
already-paid expense is selected as a debt — and the aggregation then raises
`TypeError` through the bound `self._calc_totals(...)` call instead of
returning a figure. -/
theorem calc_sts_selects_paid_expense_and_raises :
    upcoming_get_current_month ⟨2026, 10, 12⟩
        [⟨"internet", 20, ⟨2026, 10, 5⟩, none, true, false, "ACTIVE", "USD"⟩]
      = [⟨"internet", 20, ⟨2026, 10, 5⟩, none, true, false, "ACTIVE", "USD"⟩]
    ∧ calc_sts ["CHECKING"] [⟨"main", "CHECKING", 50, "USD"⟩]
        [⟨"internet", 20, ⟨2026, 10, 5⟩, none, true, false, "ACTIVE", "USD"⟩]
        ⟨2026, 10, 12⟩ = .error .typeError := by
  with_unfolding_all decide

/-- C7 (code bug): deleting a `PaymentSource` still referenced by
transactions does not leave them referencing the reserved `unknown` source:
`Transaction.source` is declared `on_delete=PROTECT`, and Django enforces
`PROTECT` during collection — before any `pre_delete` receiver (the
reassignment in `api_tools/signals.py`, which `FinanceConfig.ready` moreover
never registers) can run — so the deletion raises `ProtectedError` and the
transactions keep referencing the original source.  The aggregation half of
the claim does hold: `calc_total_assets` excludes `UNKNOWN`-type balances,
so a lone `unknown` asset contributes nothing. -/
theorem delete_source_protected_error :
    delete_source ⟨["wallet", "unknown"], [⟨"2024-9F3A21BD", "wallet"⟩]⟩ "wallet"
      = .error .protectedError
    ∧ calc_total_assets [⟨"unknown", "UNKNOWN", 50, "USD"⟩] = .ok 0 := by
  with_unfolding_all decide

/-- C1 (code bug): posting never applies the claimed signed delta, because
every step of the cited pipeline crashes: `fix_tx_data`'s amount
normalisation `Decimal(Abs(item['amount']))` raises `TypeError` for all four
transaction types (so the EXPENSE/XFER_OUT negation is unreachable), and
`calc_new_balance` raises `AttributeError` reading `asset_queryset.currency`
before it can add any delta — evaluated here at the spec's CHECKING example,
balance 100.00 and amount 30.00. -/
theorem sign_convention_crashes :
    fix_tx_amount "EXPENSE" 30 = .error .typeError
    ∧ fix_tx_amount "XFER_OUT" 30 = .error .typeError
    ∧ fix_tx_amount "INCOME" 30 = .error .typeError
    ∧ fix_tx_amount "XFER_IN" 30 = .error .typeError
    ∧ calc_new_balance (fun _ _ => 1) "USD" "USD" 100 30 = .error .attributeError := by
  exact ⟨rfl, rfl, rfl, rfl, rfl⟩

/-- C5: when a transaction linked to a planned expense is posted,
`_handle_upcoming` marks the expense paid; when an end date exists and the
posting date is on or after it, the recurrence stops and the due date does
not advance; otherwise a (still) recurring expense's due date advances
exactly one calendar month — and the spec's concrete example: due date
2024-03-01, recurring, no end date, posted 2024-03-01, yields paid with due
date 2024-04-01. -/
theorem handle_upcoming_spec (today : Date) (e : UpcomingExpense) :
    ((handle_upcoming today e).paid_flag = true
      ∧ (handle_upcoming today e).is_recurring
          = (!(match e.end_date with | none => false | some d => d.ble today)
              && e.is_recurring)
      ∧ (handle_upcoming today e).due_date
          = (if (match e.end_date with | none => false | some d => d.ble today)
             then e.due_date
             else if e.is_recurring then e.due_date.addMonths 1 else e.due_date))
    ∧ handle_upcoming ⟨2024, 3, 1⟩
        ⟨"rent", 100, ⟨2024, 3, 1⟩, none, false, true, "ACTIVE", "USD"⟩
      = ⟨"rent", 100, ⟨2024, 4, 1⟩, none, true, true, "ACTIVE", "USD"⟩ := by
  constructor
  · rcases e with ⟨n, cost, due, endd, paid, rec, st, cur⟩
    cases endd with
    | none => cases rec <;> simp [handle_upcoming, expense_save]
    | some d =>
      cases hble : Date.ble d today with
      | true =>
        cases hblt : Date.blt d today <;> cases rec <;>
          simp [handle_upcoming, expense_save, hble, hblt]
      | false =>
        have hblt : Date.blt d today = false := by
          cases hb : Date.blt d today
          · rfl
          · exact absurd (Date.ble_of_blt d today hb) (by simp [hble])
        cases rec <;> simp [handle_upcoming, expense_save, hble, hblt]
  · with_unfolding_all decide

/-- C6 counterexample: the claim says a transaction older than the current
billing cycle changes nothing, but `_updated_affected_upcomings` runs its
recurrence-restore branch unconditionally: here the transaction predates
`due_date − 1 month` (so no rollback happens), yet `is_recurring` flips
from `False` to `True`. -/
theorem updated_affected_upcomings_counterexample :
    Date.ble (Date.addMonths ⟨2024, 5, 1⟩ (-1)) ⟨2024, 1, 1⟩ = false
    ∧ (updated_affected_upcomings ⟨2024, 5, 2⟩ ⟨2024, 1, 1⟩
        ⟨"gym", 30, ⟨2024, 5, 1⟩, some ⟨2024, 6, 1⟩, true, false, "ACTIVE", "USD"⟩).is_recurring
        = true
    ∧ (⟨"gym", 30, ⟨2024, 5, 1⟩, some ⟨2024, 6, 1⟩, true, false, "ACTIVE", "USD"⟩
        : UpcomingExpense).is_recurring = false := by
  with_unfolding_all decide

/-- C6 amended: on `_updated_affected_upcomings`, if the transaction's date
is on or after `due_date − 1 month` the expense's `paid_flag` is cleared and
its `due_date` rolled back one month, and otherwise both are unchanged;
independently of that condition — even for a transaction older than the
current billing cycle — when an `end_date` exists and the (possibly
rolled-back) `due_date` is on or before it, `is_recurring` is set to
`True`, except that the save-time guard forces `is_recurring` to `False`
whenever the current date is past `end_date`. -/
theorem updated_affected_upcomings_characterization (today tx_date : Date)
    (e : UpcomingExpense) :
    (updated_affected_upcomings today tx_date e).due_date
        = (if (e.due_date.addMonths (-1)).ble tx_date then e.due_date.addMonths (-1)
           else e.due_date)
    ∧ (updated_affected_upcomings today tx_date e).paid_flag
        = (if (e.due_date.addMonths (-1)).ble tx_date then false else e.paid_flag)
    ∧ (updated_affected_upcomings today tx_date e).is_recurring
        = (match e.end_date with
           | none => e.is_recurring
           | some d =>
             if d.blt today then false
             else if (if (e.due_date.addMonths (-1)).ble tx_date then
                        e.due_date.addMonths (-1) else e.due_date).ble d then true
             else e.is_recurring) := by
  rcases e with ⟨n, cost, due, endd, paid, rec, st, cur⟩
  cases endd with
  | none =>
    cases hroll : Date.ble (Date.addMonths due (-1)) tx_date <;>
      simp [updated_affected_upcomings, expense_save, hroll]
  | some d =>
    cases hroll : Date.ble (Date.addMonths due (-1)) tx_date with
    | true =>
      cases hblt : Date.blt d today <;>
        cases hble2 : Date.ble (Date.addMonths due (-1)) d <;>
          simp [updated_affected_upcomings, expense_save, hroll, hblt, hble2]
    | false =>
      cases hblt : Date.blt d today <;>
        cases hble2 : Date.ble due d <;>
          simp [updated_affected_upcomings, expense_save, hroll, hblt, hble2]

end FinanceManager

